import Mathlib

/-!
Verification of the request-lifecycle core of the remix-storefront repository:
the product-page data aggregator, checkout mutation handler, cache-directive
propagation (src/app/routes/products.$handle.tsx), and the session-backed
script-enable feature negotiation and catch boundary (src/app/root.tsx).

TypeScript values are embedded shallowly: nullable values become `Option`,
remote calls that may fail at the transport level become
`Except CatalogError`, form/query parameter collections become association
lists, and a list of variant ids records which catalog mutations a handler
actually issued.
-/

namespace Storefront

/-- Transport-level failure of the remote catalog service. The spec calls
this `CatalogUnavailable`; it is distinct from a `null` ("no result")
response. -/
inductive CatalogError where
  | unavailable
deriving DecidableEq, Repr

/-- A product node as used by the core logic. Only `handle` enters any
control flow; `title` stands in for the remaining presentation fields. -/
structure ProductNode where
  handle : String
  title : String
deriving DecidableEq, Repr

/-- One edge of the GraphQL `products.edges` connection. -/
structure Edge where
  node : ProductNode
deriving DecidableEq, Repr

/-- The full product returned by `ProductByHandle`. -/
structure Product where
  handle : String
  title : String
deriving DecidableEq, Repr

/-- Shape of the `ProductByHandle` query result: `{ productByHandle }`,
where `productByHandle` is null for an unknown handle. -/
structure ProductByHandleResponse where
  productByHandle : Option Product
deriving DecidableEq, Repr

/-- The `products` connection: `{ edges }`. -/
structure ProductConnection where
  edges : List Edge
deriving DecidableEq, Repr

/-- Shape of the `Products` query result: `{ products: { edges } }`. -/
structure ProductsResponse where
  products : ProductConnection
deriving DecidableEq, Repr

/-- A created checkout, exposing the external `webUrl`. -/
structure Checkout where
  webUrl : String
deriving DecidableEq, Repr

/-- The `checkoutCreate` payload; its `checkout` field may be null when the
remote service declines to create a checkout. -/
structure CheckoutCreatePayload where
  checkout : Option Checkout
deriving DecidableEq, Repr

/-- Shape of the `CreateCheckout` mutation result: `{ checkoutCreate }`,
itself nullable. The source reads it as `res.checkoutCreate?.checkout`. -/
structure CreateCheckoutResponse where
  checkoutCreate : Option CheckoutCreatePayload
deriving DecidableEq, Repr

/-- The route data assembled by the product-page loader:
`{ product, relatedProducts }`. -/
structure RouteData where
  product : Option Product
  relatedProducts : List Edge
deriving DecidableEq, Repr

/-- The loader's JSON response: body plus the `Cache-Control` header it
attaches (absent on no response path here, but kept optional to mirror a
header map lookup). -/
structure LoaderResponse where
  data : RouteData
  cacheControl : Option String
deriving DecidableEq, Repr

/-- The fixed cache directive attached by the product-page loader. -/
def cacheControlValue : String :=
  "max-age=60, s-maxage=3600, stale-while-revalidate=604800"

/-- The product-page loader (src/app/routes/products.$handle.tsx).
`Promise.all` over the two concurrent catalog reads: if either rejects the
whole aggregation rejects; otherwise related products are derived by
self-exclusion on `handle` followed by `slice(0, 4)`, and the response
carries the fixed `Cache-Control` directive. -/
def loader (handle : String)
    (byHandle : Except CatalogError ProductByHandleResponse)
    (productsRes : Except CatalogError ProductsResponse) :
    Except CatalogError LoaderResponse :=
  match byHandle, productsRes with
  | .error e, _ => .error e
  | _, .error e => .error e
  | .ok r1, .ok r2 =>
    let relatedProducts :=
      (r2.products.edges.filter (fun item => item.node.handle != handle)).take 4
    .ok { data := { product := r1.productByHandle
                    relatedProducts := relatedProducts }
          cacheControl := some cacheControlValue }

/-- `URLSearchParams.get`: the first value recorded for `key`, or null. -/
def paramGet (ps : List (String × String)) (key : String) : Option String :=
  (ps.find? (fun p => p.1 == key)).map (fun p => p.2)

/-- Outcome of a route action: an HTTP redirect with a `Location`. -/
inductive ActionResult where
  | redirect (location : String)
deriving DecidableEq, Repr

/-- The checkout action (src/app/routes/products.$handle.tsx). The body is
the parsed `application/x-www-form-urlencoded` pairs. `!variantId` is true
in JS for both null and the empty string. The second component records the
variant ids for which a `CreateCheckout` catalog call was issued; an
uncaught rejection of that call propagates (there is no try/catch in the
source). -/
def action (requestUrl : String) (body : List (String × String))
    (createCheckout : String → Except CatalogError CreateCheckoutResponse) :
    Except CatalogError ActionResult × List String :=
  match paramGet body "variantId" with
  | none => (.ok (.redirect requestUrl), [])
  | some v =>
    if v = "" then
      (.ok (.redirect requestUrl), [])
    else
      match createCheckout v with
      | .error e => (.error e, [v])
      | .ok res =>
        match res.checkoutCreate.bind (fun p => p.checkout) with
        | none => (.ok (.redirect requestUrl), [v])
        | some checkout => (.ok (.redirect checkout.webUrl), [v])

/-- The route's `headers` function: copies the loader's `Cache-Control`
value, `loaderHeaders.get("Cache-Control") ?? ""`. -/
def headers (loaderCacheControl : Option String) : String :=
  match loaderCacheControl with
  | some v => v
  | none => ""

/-- The session bag. The core uses a single key, `js`; `none` models the
key being absent from the bag (`session.get("js")` returning undefined). -/
structure SessionBag where
  js : Option Bool
deriving DecidableEq, Repr

/-- Modelled from the spec: the session codec (src/app/session.server.ts is
not under src/). `encode(bag) -> Set-Cookie value`, deterministic given the
bag's contents (spec section 4.1). -/
def commitSession (bag : SessionBag) : String :=
  match bag.js with
  | none => "js:unset"
  | some false => "js:false"
  | some true => "js:true"

/-- Modelled from the spec: the session codec decode side
(src/app/session.server.ts is not under src/). `decode` never fails: a
missing, malformed, or tampered cookie decodes to an empty bag (fail-open,
spec section 4.1), and decoding a committed bag yields the bag back. -/
def getSession (cookie : Option String) : SessionBag :=
  match cookie with
  | some "js:false" => { js := some false }
  | some "js:true" => { js := some true }
  | _ => { js := none }

/-- The root loader's route data `{ js }`. The TypeScript annotation says
boolean, but on the no-override, no-session path `session.get("js")` is
undefined, so the field is modelled as optional. -/
structure RootRouteData where
  js : Option Bool
deriving DecidableEq, Repr

/-- The root loader's response: data plus the `Set-Cookie` header
(committed on every request). -/
structure RootResponse where
  data : RootRouteData
  setCookie : String
deriving DecidableEq, Repr

/-- The root loader (src/app/root.tsx): if the URL carries a `js` query
parameter the flag is `value === "1"` and is written into the session;
otherwise the flag is whatever the session holds (possibly undefined). The
session is committed into `Set-Cookie` either way. -/
def rootLoader (cookie : Option String)
    (searchParams : List (String × String)) : RootResponse :=
  let session := getSession cookie
  match paramGet searchParams "js" with
  | some v =>
    let js := v == "1"
    let session' : SessionBag := { session with js := some js }
    { data := { js := some js }, setCookie := commitSession session' }
  | none =>
    { data := { js := session.js }, setCookie := commitSession session }

/-- The truthiness with which the rendering layer consumes the flag:
`enableJS && <Scripts />` attaches scripts exactly when the value is `true`;
an undefined flag is falsy. -/
def resolvedFlag (d : RootRouteData) : Bool :=
  match d.js with
  | some b => b
  | none => false

/-- What the root catch boundary does with a caught response. -/
inductive BoundaryOutcome where
  | rendered (status : Nat) (statusText : String)
  | escalated (message : String)
deriving DecidableEq, Repr

/-- The root `CatchBoundary` (src/app/root.tsx): a switch over the caught
status which renders 401 and 404 and throws on anything else. -/
def catchBoundary (status : Nat) (statusText : String) : BoundaryOutcome :=
  if status == 401 || status == 404 then
    .rendered status statusText
  else
    .escalated ("Unexpected caught response with status: " ++ toString status)

/-! Sample catalog data used by the witnesses, following the spec's
"classic-tee" scenario. -/

/-- Sample catalog list: six products, the requested one first. -/
def sampleEdges : List Edge :=
  [⟨⟨"classic-tee", "Classic Tee"⟩⟩, ⟨⟨"hoodie", "Hoodie"⟩⟩,
   ⟨⟨"cap", "Cap"⟩⟩, ⟨⟨"socks", "Socks"⟩⟩,
   ⟨⟨"mug", "Mug"⟩⟩, ⟨⟨"scarf", "Scarf"⟩⟩]

/-- The related products expected for handle "classic-tee" over
`sampleEdges`: first four after self-exclusion, order preserved. -/
def sampleRelated : List Edge :=
  [⟨⟨"hoodie", "Hoodie"⟩⟩, ⟨⟨"cap", "Cap"⟩⟩,
   ⟨⟨"socks", "Socks"⟩⟩, ⟨⟨"mug", "Mug"⟩⟩]

/-- A catalog client whose checkout mutation fails at the transport level. -/
def failingCreateCheckout : String → Except CatalogError CreateCheckoutResponse :=
  fun _ => .error .unavailable

/-- A catalog client whose checkout mutation succeeds with a fixed webUrl. -/
def okCreateCheckout : String → Except CatalogError CreateCheckoutResponse :=
  fun _ => .ok ⟨some ⟨some ⟨"https://checkout.example/session-1"⟩⟩⟩

/-- Claim C1: for every requested handle and catalog list, the aggregator's
relatedProducts contains no entry with the requested handle, has length at
most 4, and is the initial segment (length `min 4 remaining`) of the
self-excluded list in its original order. -/
theorem aggregator_related_products (handle : String)
    (r1 : ProductByHandleResponse) (edges : List Edge) (resp : LoaderResponse)
    (h : loader handle (.ok r1) (.ok ⟨⟨edges⟩⟩) = .ok resp) :
    (∀ e ∈ resp.data.relatedProducts, e.node.handle ≠ handle) ∧
    resp.data.relatedProducts.length ≤ 4 ∧
    ∃ rest, edges.filter (fun item => item.node.handle != handle) =
        resp.data.relatedProducts ++ rest ∧
      resp.data.relatedProducts.length =
        min 4 (edges.filter (fun item => item.node.handle != handle)).length := by
  simp only [loader] at h
  injection h with h
  subst h
  refine ⟨?_, ?_, ?_⟩
  · intro e he
    have hm := List.mem_of_mem_take he
    have hp := (List.mem_filter.mp hm).2
    simpa using hp
  · rw [List.length_take]
    exact Nat.min_le_left 4 _
  · exact ⟨(edges.filter fun item => item.node.handle != handle).drop 4,
      (List.take_append_drop 4 _).symm, List.length_take 4 _⟩

/-- Witness for C1 at the spec's "classic-tee" scenario. -/
theorem aggregator_related_products_check :
    (∀ e ∈ sampleRelated, e.node.handle ≠ "classic-tee") ∧
    sampleRelated.length ≤ 4 ∧
    ∃ rest, sampleEdges.filter (fun item => item.node.handle != "classic-tee") =
        sampleRelated ++ rest ∧
      sampleRelated.length =
        min 4 (sampleEdges.filter
          (fun item => item.node.handle != "classic-tee")).length :=
  aggregator_related_products "classic-tee"
    ⟨some ⟨"classic-tee", "Classic Tee"⟩⟩ sampleEdges
    ⟨⟨some ⟨"classic-tee", "Classic Tee"⟩, sampleRelated⟩,
      some cacheControlValue⟩ rfl

/-- Claim C4: if either concurrent catalog read fails with
CatalogUnavailable, the aggregation as a whole fails with
CatalogUnavailable; the other result, even if successful, is discarded. -/
theorem aggregator_fails_whole (handle : String)
    (byHandle : Except CatalogError ProductByHandleResponse)
    (productsRes : Except CatalogError ProductsResponse)
    (h : byHandle = .error .unavailable ∨ productsRes = .error .unavailable) :
    loader handle byHandle productsRes = .error .unavailable := by
  rcases h with h | h
  · subst h
    cases productsRes <;> rfl
  · subst h
    cases byHandle with
    | error e => cases e; rfl
    | ok r => rfl

/-- Witness for C4: the list read times out while the by-handle read
succeeds; the successful half is discarded. -/
theorem aggregator_fails_whole_check :
    loader "classic-tee" (.ok ⟨some ⟨"classic-tee", "Classic Tee"⟩⟩)
      (.error .unavailable) = .error .unavailable :=
  aggregator_fails_whole "classic-tee"
    (.ok ⟨some ⟨"classic-tee", "Classic Tee"⟩⟩) (.error .unavailable)
    (Or.inr rfl)

/-- Claim C8: an unknown handle (productByHandle null) with a successful
list read still yields a view model with product null and relatedProducts
computed as usual; it is not an error. -/
theorem aggregator_null_product (handle : String)
    (edges : List Edge) :
    ∃ resp, loader handle (.ok ⟨none⟩) (.ok ⟨⟨edges⟩⟩) = .ok resp ∧
      resp.data.product = none ∧
      resp.data.relatedProducts =
        (edges.filter (fun item => item.node.handle != handle)).take 4 :=
  ⟨_, rfl, rfl, rfl⟩

/-- Claim C7: on every successful read-path response the Cache-Control
directive is the single fixed configured value, independent of handle and
product, and the outer headers function copies it verbatim. -/
theorem cache_directive_fixed (handle : String)
    (byHandle : Except CatalogError ProductByHandleResponse)
    (productsRes : Except CatalogError ProductsResponse)
    (resp : LoaderResponse)
    (h : loader handle byHandle productsRes = .ok resp) :
    resp.cacheControl = some cacheControlValue ∧
    headers resp.cacheControl = cacheControlValue := by
  cases byHandle with
  | error e => simp [loader] at h
  | ok r1 =>
    cases productsRes with
    | error e => simp [loader] at h
    | ok r2 =>
      simp only [loader] at h
      injection h with h
      subst h
      exact ⟨rfl, rfl⟩

/-- Witness for C7 at the "classic-tee" scenario. -/
theorem cache_directive_fixed_check :
    (some cacheControlValue : Option String) = some cacheControlValue ∧
    headers (some cacheControlValue) = cacheControlValue :=
  cache_directive_fixed "classic-tee"
    (.ok ⟨some ⟨"classic-tee", "Classic Tee"⟩⟩) (.ok ⟨⟨sampleEdges⟩⟩)
    ⟨⟨some ⟨"classic-tee", "Classic Tee"⟩, sampleRelated⟩,
      some cacheControlValue⟩ rfl

/-- Claim C2 counterexample: with a non-empty variantId and a createCheckout
call that raises CatalogUnavailable, the handler does not respond with a
redirect back to the page URL — the error propagates out of the action
uncaught (there is no try/catch around the mutation in the source). -/
theorem checkout_unavailable_no_redirect :
    (action "https://shop.example/products/classic-tee"
        [("variantId", "gid-variant-1")] failingCreateCheckout).1
      = Except.error CatalogError.unavailable ∧
    (action "https://shop.example/products/classic-tee"
        [("variantId", "gid-variant-1")] failingCreateCheckout).1
      ≠ Except.ok (ActionResult.redirect
          "https://shop.example/products/classic-tee") :=
  ⟨rfl, fun hc => Except.noConfusion hc⟩

/-- Claim C2 (amended): for a submission with non-empty variantId, a null
checkout payload yields a redirect back to the page URL, a created checkout
yields a redirect to its webUrl, and a raised CatalogUnavailable propagates
out of the handler; in each case exactly one catalog call was issued. -/
theorem action_nonempty_variant (url : String)
    (body : List (String × String)) (v : String)
    (createCheckout : String → Except CatalogError CreateCheckoutResponse)
    (r : CreateCheckoutResponse) (c : Checkout)
    (hv : paramGet body "variantId" = some v) (hne : v ≠ "") :
    (createCheckout v = .error .unavailable →
      action url body createCheckout = (.error .unavailable, [v])) ∧
    (createCheckout v = .ok r →
      r.checkoutCreate.bind (fun p => p.checkout) = none →
      action url body createCheckout = (.ok (.redirect url), [v])) ∧
    (createCheckout v = .ok r →
      r.checkoutCreate.bind (fun p => p.checkout) = some c →
      action url body createCheckout = (.ok (.redirect c.webUrl), [v])) := by
  refine ⟨fun h1 => ?_, fun h1 h2 => ?_, fun h1 h2 => ?_⟩ <;>
    simp [action, hv, hne, h1]
  · simp [h2]
  · simp [h2]

/-- Witness for the amended C2 at a successful checkout creation. -/
theorem action_nonempty_variant_check :
    action "https://shop.example/products/classic-tee"
        [("variantId", "gid-variant-1")] okCreateCheckout
      = (.ok (.redirect "https://checkout.example/session-1"),
          ["gid-variant-1"]) :=
  (action_nonempty_variant "https://shop.example/products/classic-tee"
    [("variantId", "gid-variant-1")] "gid-variant-1" okCreateCheckout
    ⟨some ⟨some ⟨"https://checkout.example/session-1"⟩⟩⟩
    ⟨"https://checkout.example/session-1"⟩ rfl (by decide)).2.2 rfl rfl

/-- Claim C5: a submission whose variantId is absent or empty redirects to
the original request URL and issues no catalog call, whatever the catalog
client would do. -/
theorem action_missing_variant (url : String)
    (body : List (String × String))
    (createCheckout : String → Except CatalogError CreateCheckoutResponse)
    (h : paramGet body "variantId" = none ∨
      paramGet body "variantId" = some "") :
    action url body createCheckout = (.ok (.redirect url), []) := by
  rcases h with h | h <;> simp [action, h]

/-- Witness for C5: an empty variantId, even against a failing catalog,
redirects to the request URL with no call issued. -/
theorem action_missing_variant_check :
    action "https://shop.example/products/classic-tee"
        [("variantId", "")] failingCreateCheckout
      = (.ok (.redirect "https://shop.example/products/classic-tee"), []) :=
  action_missing_variant "https://shop.example/products/classic-tee"
    [("variantId", "")] failingCreateCheckout (Or.inr rfl)

/-- Claim C3: when the URL carries a js override, the resolved flag equals
the override's boolean value regardless of prior session state, and the
value is persisted: decoding the committed session yields it again. -/
theorem js_override_wins (cookie : Option String)
    (searchParams : List (String × String)) (v : String)
    (hv : paramGet searchParams "js" = some v) :
    resolvedFlag (rootLoader cookie searchParams).data = (v == "1") ∧
    (rootLoader cookie searchParams).data.js = some (v == "1") ∧
    (getSession (some (rootLoader cookie searchParams).setCookie)).js
      = some (v == "1") := by
  cases h1 : (v == "1") <;>
    simp [rootLoader, hv, h1, resolvedFlag, commitSession, getSession]

/-- Witness for C3: override js=1 against a session recording false. -/
theorem js_override_wins_check :
    resolvedFlag (rootLoader (some "js:false") [("js", "1")]).data = true ∧
    (rootLoader (some "js:false") [("js", "1")]).data.js = some true ∧
    (getSession (some (rootLoader (some "js:false") [("js", "1")]).setCookie)).js
      = some true :=
  js_override_wins (some "js:false") [("js", "1")] "1" rfl

/-- Claim C6: with no js override and no js key in the session, the flag
resolves to false for the render and the Unset state is not persisted: the
committed session still has no js key. -/
theorem js_unset_not_persisted (cookie : Option String)
    (searchParams : List (String × String))
    (hp : paramGet searchParams "js" = none)
    (hs : (getSession cookie).js = none) :
    resolvedFlag (rootLoader cookie searchParams).data = false ∧
    (getSession (some (rootLoader cookie searchParams).setCookie)).js
      = none := by
  have hs' : getSession cookie = { js := none } := by
    cases h2 : getSession cookie with
    | mk jsv =>
      rw [h2] at hs
      simp only at hs
      subst hs
      rfl
  simp only [rootLoader, hp, hs']
  exact ⟨rfl, rfl⟩

/-- Witness for C6: a first visit with no cookie and no override. -/
theorem js_unset_not_persisted_check :
    resolvedFlag (rootLoader none []).data = false ∧
    (getSession (some (rootLoader none []).setCookie)).js = none :=
  js_unset_not_persisted none [] rfl rfl

/-- Claim C10: a js parameter with any value other than "1" resolves the
flag to false and persists false into the session, overwriting any stored
preference. -/
theorem js_override_other_value (cookie : Option String)
    (searchParams : List (String × String)) (v : String)
    (hv : paramGet searchParams "js" = some v) (hne : v ≠ "1") :
    resolvedFlag (rootLoader cookie searchParams).data = false ∧
    (rootLoader cookie searchParams).data.js = some false ∧
    (getSession (some (rootLoader cookie searchParams).setCookie)).js
      = some false := by
  have h1 : (v == "1") = false := by
    simp [hne]
  simp [rootLoader, hv, h1, resolvedFlag, commitSession, getSession]

/-- Witness for C10: js=0 overwrites a session that recorded true. -/
theorem js_override_other_value_check :
    resolvedFlag (rootLoader (some "js:true") [("js", "0")]).data = false ∧
    (rootLoader (some "js:true") [("js", "0")]).data.js = some false ∧
    (getSession (some (rootLoader (some "js:true") [("js", "0")]).setCookie)).js
      = some false :=
  js_override_other_value (some "js:true") [("js", "0")] "0" rfl (by decide)

/-- Claim C9: the catch boundary renders exactly the statuses 401 and 404;
every other caught status is escalated as a thrown error. -/
theorem catch_boundary_only_401_404 (status : Nat) (statusText : String) :
    (status = 401 ∨ status = 404 →
      catchBoundary status statusText = .rendered status statusText) ∧
    (status ≠ 401 → status ≠ 404 →
      catchBoundary status statusText =
        .escalated ("Unexpected caught response with status: "
          ++ toString status)) := by
  constructor
  · rintro (h | h) <;> subst h <;> rfl
  · intro h1 h2
    have hb : (status == 401 || status == 404) = false := by
      simp [h1, h2]
    simp [catchBoundary, hb]

/-- Witness for C9: a 500 caught response is escalated, not rendered. -/
theorem catch_boundary_only_401_404_check :
    catchBoundary 500 "Internal Server Error" =
      .escalated ("Unexpected caught response with status: "
        ++ toString 500) :=
  (catch_boundary_only_401_404 500 "Internal Server Error").2
    (by decide) (by decide)

end Storefront
